import Mathlib

/-!
NFTTrackTelegram — verification of the tracking-and-dispatch engine.

Shallow embedding of the repository's Python sources (`utils.py`,
`database.py`, `main.py`, `handlers.py`) and proofs settling the frozen
claims about the spec.  Machine time is modelled as `ℚ`, the SQLite
database as lists of row structures, and fallible operations as
`Option`/sum results.
-/

namespace NFTTrack

/-! ## utils.py — RateLimiter (lines 9–33)

`RateLimiter.__call__.wrapper` keeps a list of recent call timestamps.
On each call it drops timestamps older than `time_frame`, and if
`max_calls` timestamps remain it sleeps until the oldest one expires
(`time_frame - (current_time - calls[0])`), re-reads the clock, appends
it and invokes the wrapped function.  Time is modelled as `ℚ` with an
ideal clock: the post-sleep time is exactly the wake-up instant. -/

/-- One pass through the wrapper body: given the recorded call times and
the current clock, returns the updated `calls` list and the instant at
which the wrapped function actually starts. -/
def rlAcquire (maxCalls : ℕ) (timeFrame : ℚ) (calls : List ℚ) (now : ℚ) :
    List ℚ × ℚ :=
  let kept := calls.filter (fun t => decide (now - t ≤ timeFrame))
  if maxCalls ≤ kept.length then
    let sleepTime := timeFrame - (now - kept.headD 0)
    let wake := if 0 < sleepTime then now + sleepTime else now
    (kept ++ [wake], wake)
  else
    (kept ++ [now], now)

/-- Serial driver: calls arrive at the given times and are executed one
after the other (the wrapped function body is instantaneous, so a call's
completion time is its start time).  A call issued while a previous one
is still sleeping starts at `max` of its arrival time and the previous
completion.  Returns the list of start times. -/
def rlRunSerial (maxCalls : ℕ) (timeFrame : ℚ) (calls : List ℚ)
    (arrivals : List ℚ) (clock : ℚ) : List ℚ :=
  match arrivals with
  | [] => []
  | a :: rest =>
    let now := if a ≤ clock then clock else a
    let acq := rlAcquire maxCalls timeFrame calls now
    acq.2 :: rlRunSerial maxCalls timeFrame acq.1 rest acq.2

/-- Number of start times falling in the half-open rolling window
`[x, x+1)` of the limiter's 1-second time frame. -/
def windowCount (starts : List ℚ) (x : ℚ) : ℕ :=
  (starts.filter (fun s => decide (x ≤ s ∧ s < x + 1))).length

/-! ## utils.py — make_api_request (lines 71–93)

The decorated function issues the HTTP request; on status 429 it sleeps
5 seconds and *recursively calls itself* (`return make_api_request(...)`,
the module-level decorated name); on any other non-2xx status or a
transport exception it returns `None`; on success it returns the JSON
body.  The remote service is modelled as the list of responses the
successive attempts receive, one response consumed per attempt; an
exhausted list behaves as a transport failure with no attempt made. -/

inductive ApiResp
  | rateLimited
  | ok (v : ℕ)
  | failure
deriving DecidableEq

structure ApiOutcome where
  result : Option ℕ
  attempts : ℕ
  backoffSeconds : ℚ
deriving DecidableEq

def make_api_request : List ApiResp → ApiOutcome
  | [] => ⟨none, 0, 0⟩
  | .rateLimited :: rest =>
    let o := make_api_request rest
    ⟨o.result, o.attempts + 1, o.backoffSeconds + 5⟩
  | .ok v :: _ => ⟨some v, 1, 0⟩
  | .failure :: _ => ⟨none, 1, 0⟩

/-! ## utils.py — validate_ethereum_address (lines 95–109)

The Python code checks `address.startswith('0x') and len(address) == 42`
and then runs `int(address[2:], 16)` inside `try/except ValueError`.
CPython's `int(s, 16)` accepts more than bare hex digits: surrounding
whitespace, an optional `+`/`-` sign, an optional inner `0x`/`0X`
prefix, and single underscores between digits (also one right after the
prefix).  The parser below follows that grammar for ASCII strings
(Python additionally accepts some non-ASCII whitespace and digits, which
no theorem here relies on). -/

def isPySpace (c : Char) : Bool :=
  c = ' ' || c = '\t' || c = '\n' || c = '\r' || c = '\x0b' || c = '\x0c'

/-- Python `str.strip()` (ASCII whitespace): drop leading and trailing
whitespace characters. -/
def pyStrip (s : String) : String :=
  (((s.toList.dropWhile isPySpace).reverse.dropWhile isPySpace).reverse).asString

def pyToLower (c : Char) : Char :=
  if 'A' ≤ c ∧ c ≤ 'Z' then Char.ofNat (c.toNat + 32) else c

/-- Python `str.lower()` (ASCII range; the strings compared after
lowering in this code base are ASCII). -/
def pyLower (s : String) : String := (s.toList.map pyToLower).asString

def isPyHexDigit (c : Char) : Bool :=
  c.isDigit || ('a' ≤ c && c ≤ 'f') || ('A' ≤ c && c ≤ 'F')

/-- Digit tail: single underscores only between digits; optional
trailing whitespace after the digit run. -/
def pyHexDigitsRest : List Char → Bool
  | [] => true
  | '_' :: rest =>
    match rest with
    | [] => false
    | c :: rest2 => isPyHexDigit c && pyHexDigitsRest rest2
  | c :: rest =>
    if isPyHexDigit c then pyHexDigitsRest rest
    else (c :: rest).all isPySpace

/-- At least one hex digit, then `pyHexDigitsRest`. -/
def pyHexDigits : List Char → Bool
  | [] => false
  | c :: rest => isPyHexDigit c && pyHexDigitsRest rest

/-- Body after optional sign: optional `0x`/`0X` prefix (which may be
followed by one underscore), then digits. -/
def pyIntHexBody : List Char → Bool
  | '0' :: c :: rest =>
    if c = 'x' ∨ c = 'X' then
      match rest with
      | '_' :: rest2 => pyHexDigits rest2
      | _ => pyHexDigits rest
    else pyHexDigits ('0' :: c :: rest)
  | l => pyHexDigits l

/-- Whether CPython's `int(s, 16)` succeeds on the ASCII string `s`. -/
def pyIntHexValid (s : String) : Bool :=
  match s.toList.dropWhile isPySpace with
  | '+' :: rest => pyIntHexBody rest
  | '-' :: rest => pyIntHexBody rest
  | l => pyIntHexBody l

def validate_ethereum_address (address : String) : Bool :=
  if address = "" then false
  else if ¬ (address.toList.take 2 = ['0', 'x']) ∨ address.length ≠ 42 then false
  else pyIntHexValid (address.drop 2)

/-! ## utils.py — validate_solana_address (lines 111–122) -/

def base58Alphabet : String :=
  "123456789ABCDEFGHJKLMNPQRSTUVWXYZabcdefghijkmnopqrstuvwxyz"

def validate_solana_address (address : String) : Bool :=
  if address = "" then false
  else if address.length < 32 ∨ 44 < address.length then false
  else address.toList.all (fun c => base58Alphabet.toList.contains c)

/-! ## database.py — schema and operations

The SQLite store is modelled as lists of row structures.  The `users`
table's `settings` column has SQL default `'{}'`; the parsed JSON object
is modelled as a record of optional fields, `'{}'` being the record with
both fields absent. -/

/-- Parsed `settings` JSON object.  `none` = key absent. -/
structure Settings where
  alert_type : Option String
  update_frequency : Option String
deriving DecidableEq

/-- The JSON object `'{}'`, the `settings` column's SQL DEFAULT. -/
def emptySettings : Settings := ⟨none, none⟩

structure UserRow where
  user_id : ℕ
  first_name : String
  username : String
  settings : Settings
deriving DecidableEq

structure CollectionRow where
  user_id : ℕ
  blockchain : String
  marketplace : String
  collection_address : String
  collection_name : Option String
  last_timestamp : Option String
deriving DecidableEq

structure TxRow where
  blockchain : String
  marketplace : String
  collection_address : String
  token_id : String
  transaction_type : String
  price : Option ℚ
  currency : Option String
  buyer : Option String
  seller : Option String
  timestamp : Option String
  transaction_hash : String
deriving DecidableEq

structure DB where
  users : List UserRow
  tracked_collections : List CollectionRow
  transaction_history : List TxRow
deriving DecidableEq

def emptyDB : DB := ⟨[], [], []⟩

/-- Model of `add_user` (database.py 67–79): `INSERT OR REPLACE INTO users
(user_id, first_name, username)` — the `settings` column is not in the
column list, so the replacing row gets the column DEFAULT `'{}'` (an
existing user's stored settings are wiped back to the empty object). -/
def add_user (db : DB) (uid : ℕ) (first_name username : String) : DB :=
  { db with
    users := db.users.filter (fun u => decide (u.user_id ≠ uid)) ++
      [⟨uid, first_name, username, emptySettings⟩] }

/-- Model of `get_user_settings` (database.py 81–96): returns the parsed stored
JSON when a row exists, and the literal default dict
`{alert_type: all, update_frequency: instant}` only when no row exists. -/
def get_user_settings (db : DB) (uid : ℕ) : Settings :=
  match db.users.find? (fun u => decide (u.user_id = uid)) with
  | some u => u.settings
  | none => ⟨some "all", some "instant"⟩

/-- Model of `update_user_settings` (database.py 98–109): `UPDATE users SET
settings = ? WHERE user_id = ?`. -/
def update_user_settings (db : DB) (uid : ℕ) (s : Settings) : DB :=
  { db with
    users := db.users.map (fun u =>
      if u.user_id = uid then { u with settings := s } else u) }

/-- Model of `add_collection` (database.py 111–130): plain INSERT; the table's
`UNIQUE (user_id, blockchain, collection_address)` constraint raises
`sqlite3.IntegrityError` on a duplicate key, which the function catches
and turns into `False` with no row inserted. -/
def add_collection (db : DB) (uid : ℕ) (blockchain marketplace address : String)
    (name : Option String) : DB × Bool :=
  if db.tracked_collections.any (fun r =>
      decide (r.user_id = uid ∧ r.blockchain = blockchain ∧
        r.collection_address = address)) then
    (db, false)
  else
    ({ db with tracked_collections := db.tracked_collections ++
        [⟨uid, blockchain, marketplace, address, name, none⟩] }, true)

/-- Model of `remove_collection` (database.py 132–152): DELETE by
`(user_id, blockchain, collection_address)`; returns `rowcount > 0`. -/
def remove_collection (db : DB) (uid : ℕ) (blockchain address : String) :
    DB × Bool :=
  let remaining := db.tracked_collections.filter (fun r =>
    ¬ (r.user_id = uid ∧ r.blockchain = blockchain ∧
      r.collection_address = address))
  ({ db with tracked_collections := remaining },
   remaining.length < db.tracked_collections.length)

/-- Model of `get_user_collections` (database.py 154–168).  The SQL projects
four columns; full rows are kept here, which the callers' accesses agree
with (they read blockchain / marketplace / address / name only). -/
def get_user_collections (db : DB) (uid : ℕ) : List CollectionRow :=
  db.tracked_collections.filter (fun r => decide (r.user_id = uid))

/-- Model of `get_all_tracked_collections` (database.py 170–183): `SELECT DISTINCT
blockchain, marketplace, collection_address, collection_name`. -/
def get_all_tracked_collections (db : DB) :
    List (String × String × String × Option String) :=
  (db.tracked_collections.map (fun r =>
    (r.blockchain, r.marketplace, r.collection_address, r.collection_name))).dedup

/-- Model of `get_collection_trackers` (database.py 185–201): inner JOIN with
`users` on `user_id`, filtered by `(blockchain, collection_address)`;
yields `(user_id, parsed settings)` pairs. -/
def get_collection_trackers (db : DB) (blockchain address : String) :
    List (ℕ × Settings) :=
  (db.tracked_collections.filter (fun r =>
      decide (r.blockchain = blockchain ∧ r.collection_address = address))).filterMap
    (fun r => (db.users.find? (fun u => decide (u.user_id = r.user_id))).map
      (fun u => (u.user_id, u.settings)))

/-- Model of `update_last_timestamp` (database.py 203–215): UPDATE by
`(blockchain, collection_address)` across all users' rows. -/
def update_last_timestamp (db : DB) (blockchain address ts : String) : DB :=
  { db with
    tracked_collections := db.tracked_collections.map (fun r =>
      if r.blockchain = blockchain ∧ r.collection_address = address then
        { r with last_timestamp := some ts }
      else r) }

/-- Model of `add_transaction` (database.py 234–257): plain INSERT; the
`UNIQUE (blockchain, transaction_hash, token_id)` constraint raises
`IntegrityError` on a previously seen key, caught and returned as `None`
(row id on success, modelled as the 1-based insertion position). -/
def add_transaction (db : DB) (t : TxRow) : DB × Option ℕ :=
  if db.transaction_history.any (fun r =>
      decide (r.blockchain = t.blockchain ∧
        r.transaction_hash = t.transaction_hash ∧ r.token_id = t.token_id)) then
    (db, none)
  else
    ({ db with transaction_history := db.transaction_history ++ [t] },
     some (db.transaction_history.length + 1))

/-- Number of `tracked_collections` rows with the given
`(user_id, blockchain, collection_address)` uniqueness key. -/
def countKey (db : DB) (uid : ℕ) (blockchain address : String) : ℕ :=
  (db.tracked_collections.filter (fun r =>
    decide (r.user_id = uid ∧ r.blockchain = blockchain ∧
      r.collection_address = address))).length

/-! ## main.py — check_for_new_transactions (lines 47–102)

For the dispatch decision the poll loop reads only
`transaction.get('transaction_type', '').lower()` from a transaction, and
its identity for dispatch purposes; other fields (price, buyer, …) are
forwarded verbatim to the alert renderer and are omitted here.  A
tracker is the pair of operations the loop uses; `get_tracker` (from the
`nft_trackers` module) is passed in as a parameter.  The loop body
performs **no database writes**: its only `db` calls are the reads
`get_all_tracked_collections` and `get_collection_trackers` — it never
calls `add_transaction` or `update_last_timestamp` — so the embedding
returns the database unchanged alongside the dispatched alerts. -/

structure Transaction where
  token_id : String
  transaction_type : Option String
  transaction_hash : String
deriving DecidableEq

structure Tracker where
  get_recent_transactions : String → List Transaction
  get_collection_info : String → Option String

/-- One `send_transaction_alert` call: the user it goes to, the
transaction and the collection info forwarded. -/
structure Dispatch where
  user_id : ℕ
  transaction : Transaction
  collection_info : Option String
deriving DecidableEq

/-- Lookup `settings.get("alert_type", "all")` (main.py 90). -/
def alertTypeOf (s : Settings) : String := s.alert_type.getD "all"

/-- Lookup `settings.get("update_frequency", "instant")` (handlers.py 353). -/
def frequencyOf (s : Settings) : String := s.update_frequency.getD "instant"

/-- The per-user filter of main.py 89–96: `all` passes everything;
`sales` skips unless the lowercased type is `sale`; `purchases` skips
unless it is `purchase`. -/
def passesFilter (s : Settings) (tx : Transaction) : Bool :=
  if alertTypeOf s = "all" then true
  else
    let txType := pyLower (tx.transaction_type.getD "")
    if alertTypeOf s = "sales" ∧ txType ≠ "sale" then false
    else if alertTypeOf s = "purchases" ∧ txType ≠ "purchase" then false
    else true

/-- The nested fan-out loop of main.py 84–99: for each transaction, for
each tracking user, filter by settings and send the alert. -/
def sendAlertsLoop (trackers : List (ℕ × Settings)) (info : Option String)
    (txs : List Transaction) : List Dispatch :=
  (txs.map (fun tx => trackers.filterMap (fun p =>
    if passesFilter p.2 tx then some ⟨p.1, tx, info⟩ else none))).flatten

/-- Model of `check_for_new_transactions` (main.py 47–102).  Per distinct tracked
collection: resolve tracker (skip if unsupported), fetch recent
transactions (skip if empty; an exception is caught and also dispatches
nothing), fetch collection info and tracking users, fan out filtered
alerts.  No state is written back. -/
def check_for_new_transactions (get_tracker : String → String → Option Tracker)
    (db : DB) : DB × List Dispatch :=
  (db,
   ((get_all_tracked_collections db).map (fun c =>
      match get_tracker c.1 c.2.1 with
      | none => []
      | some tr =>
        let txs := tr.get_recent_transactions c.2.2.1
        if txs.isEmpty then []
        else sendAlertsLoop (get_collection_trackers db c.1 c.2.2.1)
          (tr.get_collection_info c.2.2.1) txs)).flatten)

/-! ## handlers.py — conversation flows -/

/-- Result of the address step of the add-collection flow
(handlers.py 142–182), up to the point where the network layer
(`tracker.validate_collection`) is or is not reached. -/
inductive AddrStep
  | reprompt
  | unsupported
  | trackerInvoked
deriving DecidableEq

/-- The format pre-check of handlers.py 148–153: EVM chains use
`validate_ethereum_address`; Solana uses
`validate_solana_address(addr) or len(addr) > 0`; other values leave the
initial `True`. -/
def is_valid_format (blockchain address : String) : Bool :=
  if blockchain = "ethereum" ∨ blockchain = "polygon" then
    validate_ethereum_address address
  else if blockchain = "solana" then
    validate_solana_address address || decide (0 < address.length)
  else true

/-- Model of `collection_address_entered` (handlers.py 142–182) up to the tracker
round-trip: the entered text is stripped, the format pre-check failing
re-prompts (`return COLLECTION_ADDRESS`), an unsupported
`(blockchain, marketplace)` ends the flow, and otherwise
`tracker.validate_collection` — the network layer — is invoked.
`get_tracker_exists bc mp` models `get_tracker(bc, mp) is not None`. -/
def collection_address_entered (get_tracker_exists : String → String → Bool)
    (blockchain marketplace text : String) : AddrStep :=
  let collection_address := pyStrip text
  if is_valid_format blockchain collection_address = false then .reprompt
  else if get_tracker_exists blockchain marketplace = false then .unsupported
  else .trackerInvoked

/-- What handlers.py 198–208 reports after `db.add_collection`:
the success branch announces the new collection, the failure branch
tells the user they are already tracking it. -/
inductive AddCollectionReport
  | added
  | alreadyTracked
deriving DecidableEq

def add_collection_report (success : Bool) : AddCollectionReport :=
  if success then .added else .alreadyTracked

/-- Settings flow, alert-type branch: `settings_start` (handlers.py
338–377) reads the user's settings into the session, and
`alert_type_selected` (handlers.py 425–457) mutates only `alert_type`
on that record and persists it wholesale via `update_user_settings`. -/
def settings_flow_alert_type (db : DB) (uid : ℕ) (choice : String) : DB :=
  let current := get_user_settings db uid
  update_user_settings db uid { current with alert_type := some choice }

/-- Settings flow, frequency branch: `settings_start` then
`update_frequency_selected` (handlers.py 459–491), mutating only
`update_frequency`. -/
def settings_flow_update_frequency (db : DB) (uid : ℕ) (choice : String) : DB :=
  let current := get_user_settings db uid
  update_user_settings db uid { current with update_frequency := some choice }

/-- Outcome of `remove_collection_selected` (handlers.py 294–336). -/
inductive RemoveOutcome
  | errorNotFound
  | removed
  | removeFailed
  | indexError
deriving DecidableEq

/-- Python list subscription `l[i]`: non-negative indices from the
front, negative indices from the back, `IndexError` (here `none`)
when out of bounds. -/
def pyIndex {α : Type} (l : List α) (i : ℤ) : Option α :=
  if 0 ≤ i then l.get? i.toNat
  else if -i ≤ (l.length : ℤ) then l.get? (l.length - (-i).toNat)
  else none

/-- Model of `remove_collection_selected` (handlers.py 294–336) after parsing the
callback index: `if not collections or index >= len(collections)` shows
the not-found error; otherwise `collections[index]` is subscripted
Python-style and `db.remove_collection` runs on the selected row
(`indexError` marks the uncaught `IndexError` a too-negative index
raises). -/
def remove_collection_selected (db : DB) (uid : ℕ)
    (snapshot : List CollectionRow) (i : ℤ) : DB × RemoveOutcome :=
  if snapshot = [] ∨ (snapshot.length : ℤ) ≤ i then (db, .errorNotFound)
  else
    match pyIndex snapshot i with
    | none => (db, .indexError)
    | some sel =>
      let r := remove_collection db uid sel.blockchain sel.collection_address
      if r.2 then (r.1, .removed) else (r.1, .removeFailed)

/-! ## Concrete scenarios used by the closed theorems -/

/-- A sale transaction as a tracker surfaces it on every poll of its
"recent" window. -/
def demoTx : Transaction := ⟨"42", some "sale", "0xhash1"⟩

/-- A tracker whose recent-activity window keeps returning `demoTx` on
consecutive poll ticks, as real marketplace activity endpoints do. -/
def demoTracker : Tracker := ⟨fun _ => [demoTx], fun _ => some "Cool Collection"⟩

def demoGetTracker : String → String → Option Tracker := fun bc mp =>
  if bc = "ethereum" ∧ mp = "opensea" then some demoTracker else none

/-- State after user 7's first interaction and a successful
add-collection flow for an Ethereum/OpenSea collection. -/
def demoDB : DB :=
  (add_collection (add_user emptyDB 7 "Ann" "ann") 7 "ethereum" "opensea"
    "0xcafe" (some "Cool Collection")).1

def remDemoA : CollectionRow := ⟨7, "ethereum", "opensea", "0xaaaa", none, none⟩

def remDemoB : CollectionRow := ⟨7, "ethereum", "opensea", "0xbbbb", none, none⟩

/-- User 7 tracking two collections, for the remove-collection flow. -/
def remDemoDB : DB := ⟨[⟨7, "Ann", "ann", emptySettings⟩], [remDemoA, remDemoB], []⟩

/-! ## Claim theorems -/

/-- Claim C1 (code bug).  A poll tick whose tracker returns a transaction
already surfaced by the previous tick dispatches that transaction's
alert *again*: after one tick over `demoDB`, a second identical tick
still produces one dispatch for `demoTx`, not zero.  The claimed
duplicate suppression cannot act because `check_for_new_transactions`
never records transactions at all — the first tick leaves
`transaction_history` empty, so the idempotent uniqueness key of
`add_transaction` is never consulted. -/
theorem second_tick_redispatches_same_transaction :
    (check_for_new_transactions demoGetTracker
        (check_for_new_transactions demoGetTracker demoDB).1).2 =
      [⟨7, demoTx, some "Cool Collection"⟩]
    ∧ (check_for_new_transactions demoGetTracker demoDB).1.transaction_history
        = [] := by
  decide

/-- Claim C2 (code bug).  A poll tick that did process a collection (it
dispatched its alert) leaves the collection's `last_timestamp`
checkpoint untouched (`none`): `check_for_new_transactions` contains no
call to `update_last_timestamp`, so the whole database comes back
unchanged. -/
theorem tick_persists_no_checkpoint :
    ((check_for_new_transactions demoGetTracker demoDB).1.tracked_collections.map
        (fun r => r.last_timestamp)) = [none]
    ∧ (check_for_new_transactions demoGetTracker demoDB).1 = demoDB := by
  decide

/-- Claim C3 (counterexample).  The claim predicts that a 429 answered on
the single retry propagates the failure: at most two attempts, result
`None`.  On the concrete response sequence 429, 429, success the code
instead makes a third attempt and succeeds. -/
theorem make_api_request_double_429_counterexample :
    (make_api_request [.rateLimited, .rateLimited, .ok 7]).result = some 7
    ∧ (make_api_request [.rateLimited, .rateLimited, .ok 7]).attempts = 3
    ∧ ¬ (make_api_request [.rateLimited, .rateLimited, .ok 7]).attempts ≤ 2 := by
  decide

/-- Claim C3 (amended).  On every 429 the gateway backs off a fixed 5
seconds and retries the same request, with no retry bound: a run of `n`
consecutive 429s followed by a success makes `n + 1` attempts, sleeps
`5 * n` seconds in total, and returns the success — the failure never
propagates while the service keeps answering 429. -/
theorem make_api_request_retries_every_rate_limit (n v : ℕ) :
    make_api_request (List.replicate n .rateLimited ++ [.ok v]) =
      ⟨some v, n + 1, 5 * n⟩ := by
  induction n with
  | zero => simp [make_api_request]
  | succ k ih =>
    rw [List.replicate_succ, List.cons_append, make_api_request, ih]
    simp [ApiOutcome.mk.injEq]
    ring

/-- Every wrapped call eventually runs: the rate limiter produces one
start time per arrival, whatever the state. -/
theorem rlRunSerial_length (mc : ℕ) (tf : ℚ) (calls arrivals : List ℚ)
    (clock : ℚ) :
    (rlRunSerial mc tf calls arrivals clock).length = arrivals.length := by
  induction arrivals generalizing calls clock with
  | nil => simp [rlRunSerial]
  | cons a rest ih => simp [rlRunSerial, ih]

/-- Claim C5.  Six serial calls arriving together (all at time `0`,
limit 5 per rolling second): the first five start immediately, the sixth
is suspended until the oldest call in the window expires (time
`0 + 1 = 1`) and then completes; at most five calls start within any
rolling 1-second window (windows taken half-open, matching the code's
treatment of a call as expired exactly when its window elapses); and no
call is dropped — every arrival yields a start, in any state. -/
theorem rate_limiter_six_serial_calls :
    rlRunSerial 5 1 [] (List.replicate 6 0) 0 = [0, 0, 0, 0, 0, 1]
    ∧ (∀ x : ℚ, windowCount (rlRunSerial 5 1 [] (List.replicate 6 0) 0) x ≤ 5)
    ∧ (∀ (mc : ℕ) (tf : ℚ) (calls arrivals : List ℚ) (clock : ℚ),
        (rlRunSerial mc tf calls arrivals clock).length = arrivals.length) := by
  have h6 : rlRunSerial 5 1 [] (List.replicate 6 0) 0 = [0, 0, 0, 0, 0, 1] := by
    norm_num [rlRunSerial, rlAcquire, List.replicate, List.filter]
  refine ⟨h6, ?_, fun mc tf calls arrivals clock =>
    rlRunSerial_length mc tf calls arrivals clock⟩
  intro x
  rw [h6]
  simp only [windowCount, List.filter_cons, List.filter_nil, decide_eq_true_eq]
  split_ifs with h0 h1 h1 <;>
    first
      | exact absurd h0.1 (by linarith [h1.2])
      | simp

/-- Claim C4 (counterexample).  The malformed Solana input `!!!` (not
base58, length 3) makes the chain pre-check return false, yet the flow
does not re-prompt: `validate_solana_address(addr) or len(addr) > 0`
accepts every non-empty input, so the tracker — the network layer — is
invoked for it. -/
theorem solana_malformed_address_reaches_tracker :
    validate_solana_address "!!!" = false
    ∧ collection_address_entered (fun _ _ => true) "solana" "magiceden" "!!!" =
        .trackerInvoked := by
  decide

/-- Claim C4 (amended).  For Ethereum/Polygon, any entered text whose
stripped form fails `validate_ethereum_address` re-prompts without
touching the tracker, and acceptance requires the `0x` prefix and total
length 42 — but not 40 hex digits exactly: CPython `int(_, 16)` parsing
also accepts e.g. a sign character, as the accepted 42-character address
`0x+111…1` shows.  For Solana the flow re-prompts exactly on the empty
(stripped) input — every non-empty input proceeds towards the tracker —
while the unused-by-the-flow predicate `validate_solana_address` itself
correctly returns false on malformed input without throwing. -/
theorem address_format_gate (ht : String → String → Bool) (mp raw : String) :
    (validate_ethereum_address (pyStrip raw) = false →
      collection_address_entered ht "ethereum" mp raw = .reprompt
      ∧ collection_address_entered ht "polygon" mp raw = .reprompt)
    ∧ (∀ a : String, validate_ethereum_address a = true →
        a.toList.take 2 = ['0', 'x'] ∧ a.length = 42)
    ∧ validate_ethereum_address ("0x+" ++ String.mk (List.replicate 39 '1')) = true
    ∧ (collection_address_entered ht "solana" mp raw = .reprompt ↔
        pyStrip raw = "")
    ∧ validate_solana_address "!!!" = false := by
  refine ⟨?_, ?_, by decide, ?_, by decide⟩
  · intro h
    constructor <;> simp [collection_address_entered, is_valid_format, h]
  · intro a ha
    unfold validate_ethereum_address at ha
    split_ifs at ha with h1 h2
    push_neg at h2
    exact ⟨h2.1, h2.2⟩
  · constructor
    · intro hr
      by_contra hne
      have hlen : 0 < (pyStrip raw).length := by
        rcases Nat.eq_zero_or_pos (pyStrip raw).length with hz | hp
        · exact absurd (String.ext ((List.length_eq_zero).mp
            (by simpa [String.length_data] using hz))) hne
        · exact hp
      have hv : is_valid_format "solana" (pyStrip raw) = true := by
        simp [is_valid_format, hlen]
      rw [collection_address_entered] at hr
      simp only [hv] at hr
      by_cases hg : ht "solana" mp = false <;> simp [hg] at hr
    · intro he
      simp [collection_address_entered, is_valid_format, he,
        validate_solana_address]

/-- Claim C4 witness for `address_format_gate`. -/
theorem address_format_gate_witness :
    collection_address_entered (fun _ _ => true) "ethereum" "opensea" "nothex" =
      .reprompt :=
  ((address_format_gate (fun _ _ => true) "opensea" "nothex").1 (by decide)).1

/-- Membership in the fan-out loop, characterised. -/
theorem mem_sendAlertsLoop {trackers : List (ℕ × Settings)} {info i2 : Option String}
    {txs : List Transaction} {uid : ℕ} {tx : Transaction} :
    (⟨uid, tx, i2⟩ : Dispatch) ∈ sendAlertsLoop trackers info txs ↔
      i2 = info ∧ tx ∈ txs ∧ ∃ s, (uid, s) ∈ trackers ∧ passesFilter s tx = true := by
  constructor
  · intro h
    simp only [sendAlertsLoop, List.mem_flatten, List.mem_map] at h
    obtain ⟨l, ⟨tx2, htx2, rfl⟩, hmem⟩ := h
    rw [List.mem_filterMap] at hmem
    obtain ⟨p, hp, hif⟩ := hmem
    by_cases hpass : passesFilter p.2 tx2 = true
    · rw [if_pos hpass] at hif
      have h3 := Option.some.inj hif
      rw [Dispatch.mk.injEq] at h3
      obtain ⟨h4, h5, h6⟩ := h3
      subst h4; subst h5; subst h6
      exact ⟨rfl, htx2, p.2, by simpa using hp, hpass⟩
    · rw [if_neg hpass] at hif
      cases hif
  · rintro ⟨rfl, htx, s, hs, hpass⟩
    simp only [sendAlertsLoop, List.mem_flatten, List.mem_map]
    refine ⟨_, ⟨tx, htx, rfl⟩, ?_⟩
    rw [List.mem_filterMap]
    exact ⟨(uid, s), hs, by simp [hpass]⟩


theorem passesFilter_sales {s : Settings} {tx : Transaction}
    (hs : s.alert_type = some "sales") :
    passesFilter s tx = true ↔ pyLower (tx.transaction_type.getD "") = "sale" := by
  simp [passesFilter, alertTypeOf, hs]

theorem passesFilter_purchases {s : Settings} {tx : Transaction}
    (hs : s.alert_type = some "purchases") :
    passesFilter s tx = true ↔ pyLower (tx.transaction_type.getD "") = "purchase" := by
  simp [passesFilter, alertTypeOf, hs]

theorem passesFilter_all {s : Settings} {tx : Transaction}
    (hs : s.alert_type = some "all") : passesFilter s tx = true := by
  simp [passesFilter, alertTypeOf, hs]


/-- Claim C6.  For any mixed sequence of sale/purchase transactions
fanned out by the poll tick's nested loop, a user whose settings carry
`alert_type = "sales"` receives dispatch calls only for transactions
with `transaction_type = "sale"`; symmetrically for `"purchases"`; and
`"all"` passes every transaction (the side condition ties the user id to
one settings record, as the `users` PRIMARY KEY guarantees). -/
theorem dispatch_filters_by_alert_type
    (trackers : List (ℕ × Settings)) (info : Option String)
    (txs : List Transaction) (uid : ℕ) (s : Settings)
    (hty : ∀ tx ∈ txs, tx.transaction_type = some "sale" ∨
      tx.transaction_type = some "purchase")
    (huniq : ∀ p ∈ trackers, p.1 = uid → p.2 = s) :
    (s.alert_type = some "sales" →
      ∀ tx i2, (⟨uid, tx, i2⟩ : Dispatch) ∈ sendAlertsLoop trackers info txs →
        tx.transaction_type = some "sale")
    ∧ (s.alert_type = some "purchases" →
      ∀ tx i2, (⟨uid, tx, i2⟩ : Dispatch) ∈ sendAlertsLoop trackers info txs →
        tx.transaction_type = some "purchase")
    ∧ (s.alert_type = some "all" →
      ∀ tx ∈ txs, (uid, s) ∈ trackers →
        (⟨uid, tx, info⟩ : Dispatch) ∈ sendAlertsLoop trackers info txs) := by
  refine ⟨?_, ?_, ?_⟩
  · intro hs tx i2 hmem
    obtain ⟨-, htx, s2, hs2, hpass⟩ := mem_sendAlertsLoop.mp hmem
    have he : s2 = s := huniq (uid, s2) hs2 rfl
    subst he
    rw [passesFilter_sales hs] at hpass
    rcases hty tx htx with h | h
    · exact h
    · exact absurd hpass (by rw [h]; decide)
  · intro hs tx i2 hmem
    obtain ⟨-, htx, s2, hs2, hpass⟩ := mem_sendAlertsLoop.mp hmem
    have he : s2 = s := huniq (uid, s2) hs2 rfl
    subst he
    rw [passesFilter_purchases hs] at hpass
    rcases hty tx htx with h | h
    · exact absurd hpass (by rw [h]; decide)
    · exact h
  · intro hs tx htx htr
    exact mem_sendAlertsLoop.mpr ⟨rfl, htx, s, htr, passesFilter_all hs⟩

theorem dispatch_filters_by_alert_type_witness :
    (⟨7, ⟨"1", some "sale", "h1"⟩, none⟩ : Dispatch) ∈
      sendAlertsLoop [(7, ⟨some "all", none⟩)] none [⟨"1", some "sale", "h1"⟩] :=
  (dispatch_filters_by_alert_type [(7, ⟨some "all", none⟩)] none
      [⟨"1", some "sale", "h1"⟩] 7 ⟨some "all", none⟩ (by decide) (by decide)).2.2
    rfl ⟨"1", some "sale", "h1"⟩ (by decide) (by decide)


/-- Claim C7.  Starting from any store satisfying the uniqueness
invariant, adding the same `(user, blockchain, address)` twice leaves
exactly one `tracked_collections` row with that key, the second
`add_collection` returns false instead of failing, and the flow
accordingly reports "already tracked". -/
theorem add_collection_twice_idempotent (db : DB) (uid : ℕ)
    (bc mp addr : String) (name name2 : Option String)
    (h : countKey db uid bc addr ≤ 1) :
    countKey (add_collection (add_collection db uid bc mp addr name).1
        uid bc mp addr name2).1 uid bc addr = 1
    ∧ (add_collection (add_collection db uid bc mp addr name).1
        uid bc mp addr name2).2 = false
    ∧ add_collection_report
        ((add_collection (add_collection db uid bc mp addr name).1
          uid bc mp addr name2).2) = .alreadyTracked := by
  by_cases hA : db.tracked_collections.any (fun r =>
      decide (r.user_id = uid ∧ r.blockchain = bc ∧ r.collection_address = addr)) = true
  · have e1 : add_collection db uid bc mp addr name = (db, false) := by
      simp only [add_collection]
      rw [if_pos hA]
    have hcnt : countKey db uid bc addr = 1 := by
      obtain ⟨r, hr, hpr⟩ := List.any_eq_true.mp hA
      have hpos : 0 < countKey db uid bc addr :=
        List.length_pos_of_mem (List.mem_filter.mpr ⟨hr, hpr⟩)
      omega
    have e2 : add_collection db uid bc mp addr name2 = (db, false) := by
      simp only [add_collection]
      rw [if_pos hA]
    refine ⟨?_, ?_, ?_⟩ <;> simp only [e1, e2]
    · exact hcnt
    · rfl
  · have hnil : db.tracked_collections.filter (fun r =>
        decide (r.user_id = uid ∧ r.blockchain = bc ∧ r.collection_address = addr)) = [] := by
      rw [List.filter_eq_nil_iff]
      intro r hr hpr
      exact hA (List.any_eq_true.mpr ⟨r, hr, hpr⟩)
    have e1 : add_collection db uid bc mp addr name =
        ({ db with tracked_collections :=
          db.tracked_collections ++ [⟨uid, bc, mp, addr, name, none⟩] }, true) := by
      simp only [add_collection]
      rw [if_neg hA]
    have hA3 : (db.tracked_collections ++
        [(⟨uid, bc, mp, addr, name, none⟩ : CollectionRow)]).any
        (fun r => decide (r.user_id = uid ∧ r.blockchain = bc ∧
          r.collection_address = addr)) = true :=
      List.any_eq_true.mpr ⟨⟨uid, bc, mp, addr, name, none⟩, by simp, by simp⟩
    have e2 : add_collection ({ db with tracked_collections :=
          db.tracked_collections ++ [⟨uid, bc, mp, addr, name, none⟩] } : DB)
        uid bc mp addr name2 =
        (({ db with tracked_collections :=
          db.tracked_collections ++ [⟨uid, bc, mp, addr, name, none⟩] } : DB), false) := by
      simp only [add_collection]
      rw [if_pos hA3]
    rw [e1]
    refine ⟨?_, ?_, ?_⟩ <;> simp only [e2]
    · simp only [countKey, List.filter_append, hnil, List.nil_append]
      simp
    · rfl

theorem add_collection_twice_idempotent_witness :
    countKey (add_collection (add_collection emptyDB 7 "ethereum" "opensea" "0xc" none).1
        7 "ethereum" "opensea" "0xc" none).1 7 "ethereum" "0xc" = 1
    ∧ (add_collection (add_collection emptyDB 7 "ethereum" "opensea" "0xc" none).1
        7 "ethereum" "opensea" "0xc" none).2 = false
    ∧ add_collection_report
        ((add_collection (add_collection emptyDB 7 "ethereum" "opensea" "0xc" none).1
          7 "ethereum" "opensea" "0xc" none).2) = .alreadyTracked :=
  add_collection_twice_idempotent emptyDB 7 "ethereum" "opensea" "0xc" none none
    (by decide)


/-- An `UPDATE users SET settings = ? WHERE user_id = ?` rewrites the row
that a subsequent `SELECT ... WHERE user_id = ?` finds. -/
theorem find?_map_update (l : List UserRow) (uid : ℕ) (s : Settings) (u : UserRow)
    (h : l.find? (fun w => decide (w.user_id = uid)) = some u) :
    (l.map (fun w => if w.user_id = uid then { w with settings := s } else w)).find?
      (fun w => decide (w.user_id = uid)) = some { u with settings := s } := by
  induction l with
  | nil => cases h
  | cons a rest ih =>
    by_cases ha : a.user_id = uid
    · rw [List.find?_cons_of_pos _ (by simp [ha])] at h
      injection h with h
      subst h
      rw [List.map_cons, List.find?_cons_of_pos _ (by simp [ha]), if_pos ha]
    · rw [List.find?_cons_of_neg _ (by simp [ha])] at h
      rw [List.map_cons, if_neg ha, List.find?_cons_of_neg _ (by simp [ha])]
      exact ih h

theorem get_after_update (db : DB) (uid : ℕ) (s : Settings) (u : UserRow)
    (h : db.users.find? (fun w => decide (w.user_id = uid)) = some u) :
    get_user_settings (update_user_settings db uid s) uid = s := by
  simp [get_user_settings, update_user_settings, find?_map_update db.users uid s u h]

/-- Claim C8.  Committing the alert-type sub-branch persists exactly the
record read at flow start with only `alert_type` replaced — in
particular the stored `update_frequency` after the commit equals the
value read at flow start — and symmetrically the frequency sub-branch
leaves `alert_type` at its flow-start value: read-modify-write of one
field, never wholesale replacement. -/
theorem settings_flow_updates_single_field (db : DB) (uid : ℕ) (c : String)
    (h : ∃ u ∈ db.users, u.user_id = uid) :
    get_user_settings (settings_flow_alert_type db uid c) uid =
      { get_user_settings db uid with alert_type := some c }
    ∧ (get_user_settings (settings_flow_alert_type db uid c) uid).update_frequency =
      (get_user_settings db uid).update_frequency
    ∧ get_user_settings (settings_flow_update_frequency db uid c) uid =
      { get_user_settings db uid with update_frequency := some c }
    ∧ (get_user_settings (settings_flow_update_frequency db uid c) uid).alert_type =
      (get_user_settings db uid).alert_type := by
  have hf : ∃ u, db.users.find? (fun w => decide (w.user_id = uid)) = some u := by
    obtain ⟨u, hu, he⟩ := h
    have : (db.users.find? (fun w => decide (w.user_id = uid))).isSome = true :=
      List.find?_isSome.mpr ⟨u, hu, by simp [he]⟩
    exact Option.isSome_iff_exists.mp this
  obtain ⟨u, hu⟩ := hf
  have h1 : get_user_settings (settings_flow_alert_type db uid c) uid =
      { get_user_settings db uid with alert_type := some c } := by
    simp only [settings_flow_alert_type]
    exact get_after_update db uid _ u hu
  have h2 : get_user_settings (settings_flow_update_frequency db uid c) uid =
      { get_user_settings db uid with update_frequency := some c } := by
    simp only [settings_flow_update_frequency]
    exact get_after_update db uid _ u hu
  exact ⟨h1, by rw [h1], h2, by rw [h2]⟩

theorem settings_flow_updates_single_field_witness :
    get_user_settings (settings_flow_alert_type
        (⟨[⟨7, "Ann", "ann", ⟨some "all", some "hourly"⟩⟩], [], []⟩ : DB) 7 "sales") 7 =
      ⟨some "sales", some "hourly"⟩ := by
  rw [(settings_flow_updates_single_field
      (⟨[⟨7, "Ann", "ann", ⟨some "all", some "hourly"⟩⟩], [], []⟩ : DB) 7 "sales"
      ⟨⟨7, "Ann", "ann", ⟨some "all", some "hourly"⟩⟩, by simp, rfl⟩).1]
  decide

/-- After INSERT OR REPLACE, the user's row is found with the DEFAULT
settings column. -/
theorem find?_add_user (db : DB) (uid : ℕ) (fn un : String) :
    (add_user db uid fn un).users.find? (fun w => decide (w.user_id = uid)) =
      some ⟨uid, fn, un, emptySettings⟩ := by
  simp only [add_user, List.find?_append]
  have hnone : (db.users.filter (fun u => decide (u.user_id ≠ uid))).find?
      (fun w => decide (w.user_id = uid)) = none := by
    rw [List.find?_eq_none]
    intro x hx
    simp only [List.mem_filter, decide_eq_true_eq] at hx
    simp [hx.2]
  rw [hnone]
  simp [List.find?]

/-- Claim C9 (amended).  Reading the settings of a user who has been
created (first interaction, `add_user`) but never went through the
settings flow yields the empty record `{}` — not the documented
defaults; the literal default pair `{all, instant}` is returned only
when no user row exists, and each consumer supplies the defaults
per-field (`settings.get("alert_type", "all")`,
`settings.get("update_frequency", "instant")`), so the effective
values are `all`/`instant`. -/
theorem created_user_reads_empty_settings (db : DB) (uid : ℕ) (fn un : String) :
    get_user_settings (add_user db uid fn un) uid = emptySettings
    ∧ alertTypeOf (get_user_settings (add_user db uid fn un) uid) = "all"
    ∧ frequencyOf (get_user_settings (add_user db uid fn un) uid) = "instant"
    ∧ (∀ d : DB, d.users.find? (fun w => decide (w.user_id = uid)) = none →
        get_user_settings d uid = ⟨some "all", some "instant"⟩) := by
  have h1 : get_user_settings (add_user db uid fn un) uid = emptySettings := by
    simp [get_user_settings, find?_add_user db uid fn un, emptySettings]
  refine ⟨h1, by rw [h1]; rfl, by rw [h1]; rfl, ?_⟩
  intro d hd
  simp [get_user_settings, hd]

theorem created_user_reads_empty_settings_witness :
    get_user_settings (add_user emptyDB 7 "Ann" "ann") 7 = emptySettings
    ∧ get_user_settings emptyDB 7 = ⟨some "all", some "instant"⟩ :=
  ⟨(created_user_reads_empty_settings emptyDB 7 "Ann" "ann").1,
   (created_user_reads_empty_settings emptyDB 7 "Ann" "ann").2.2.2 emptyDB rfl⟩

/-- Claim C9 (counterexample).  For a freshly created user the read
returns the empty record, which differs from the claimed
`{alert_type = all, update_frequency = instant}`. -/
theorem created_user_settings_counterexample :
    get_user_settings (add_user emptyDB 7 "Ann" "ann") 7 = emptySettings
    ∧ get_user_settings (add_user emptyDB 7 "Ann" "ann") 7 ≠
        ⟨some "all", some "instant"⟩ := by
  decide

/-- Claim C10 (counterexample).  With a snapshot of two tracked
collections, selection index `-1` is not a valid position, yet the flow
does not report an error: the missing lower-bound check lets Python
negative indexing pick the last entry and remove it from the store. -/
theorem negative_index_removes_collection :
    (remove_collection_selected remDemoDB 7 (get_user_collections remDemoDB 7)
        (-1)).2 = .removed
    ∧ (remove_collection_selected remDemoDB 7 (get_user_collections remDemoDB 7)
        (-1)).1.tracked_collections = [remDemoA] := by
  decide

/-- Claim C10 (amended).  An empty snapshot or a selection index that is
at least the snapshot length makes the flow report "Collection not
found" and remove nothing; but negative indices are not rejected: `-k`
with `k ≤ length` removes the k-th collection from the end (see the
counterexample), and `-k` with `k > length` raises an uncaught
`IndexError`. -/
theorem remove_selection_range_check (db : DB) (uid : ℕ)
    (snapshot : List CollectionRow) (i : ℤ) :
    ((snapshot = [] ∨ (snapshot.length : ℤ) ≤ i) →
      remove_collection_selected db uid snapshot i = (db, .errorNotFound))
    ∧ (snapshot ≠ [] → i < 0 → (snapshot.length : ℤ) < -i →
        remove_collection_selected db uid snapshot i = (db, .indexError)) := by
  constructor
  · intro h
    simp only [remove_collection_selected]
    rw [if_pos h]
  · intro h0 h1 h2
    have hcond : ¬ (snapshot = [] ∨ (snapshot.length : ℤ) ≤ i) := by
      push_neg
      exact ⟨h0, by omega⟩
    have hpi : pyIndex snapshot i = none := by
      simp only [pyIndex]
      rw [if_neg (by omega), if_neg (by omega)]
    simp only [remove_collection_selected]
    rw [if_neg hcond, hpi]

theorem remove_selection_range_check_witness :
    remove_collection_selected remDemoDB 7 (get_user_collections remDemoDB 7) 5 =
      (remDemoDB, .errorNotFound) :=
  (remove_selection_range_check remDemoDB 7 (get_user_collections remDemoDB 7) 5).1
    (Or.inr (by decide))

end NFTTrack
